import Mathlib

/-!
Verification of `operator/src/main/resources/scripts/start-server.py`, a WLST
script that starts a WebLogic server through the node manager.

The script is embedded shallowly: external behaviour (environment variables,
file reads and writes, and the outcome of the WLST calls `nmConnect`,
`nmStart`, `nmDisconnect`) is packaged in a `World` record, and the script is
a pure function from a `World` to the list of observable events it performs,
together with its termination outcome.
-/

/-- Observable events the script can perform, in program order. -/
inductive Event where
  | print (s : String)
  | fileRead (path : String)
  | fileWrite (path : String) (bytes : List Nat)
  | nmConnect (userConfigFile userKeyFile host port domainName domainDir nmType : String)
  | nmStart (server : String)
  | nmDisconnect
  deriving DecidableEq, Repr

/-- How the process terminates.  `exited c` is a call of `sys.exit(c)` or the
final `exit()`; the other constructors are uncaught exceptions (an `IOError`
from a file operation, a `binascii.Error` from base64 decoding, or a
`WLSTException` escaping the `except` block). -/
inductive Outcome where
  | exited (code : Nat)
  | ioError
  | decodeError
  | uncaughtWLST (msg : String)
  deriving DecidableEq, Repr

/-- The script's environment: the process environment, the file system, and
the behaviour of the three external WLST node-manager calls.  A `some msg`
in a `...Raises` field means that call raises `WLSTException(msg)`. -/
structure World where
  env : String → Option String
  readFile : String → Option String
  writeOk : String → Bool
  connectRaises : Option String
  startRaises : Option String
  disconnectRaises : Option String

/-- The five environment variables the script reads, in the order it reads
them (lines 22-26 of the script). -/
def requiredVars : List String :=
  ["DOMAIN_UID", "SERVER_NAME", "DOMAIN_NAME", "DOMAIN_HOME", "SERVICE_NAME"]

/-- The message printed by `getEnvVar` on a missing variable.  The Python 2
`print a, b, c` statement joins the items with single spaces, hence the
double spaces around the variable name. -/
def errMsg (var : String) : String :=
  "ERROR: Env var " ++ " " ++ var ++ " " ++ " not set."

/-- Fixed path of the base64-encoded key file read by the script (line 33). -/
def keyFilePath : String := "/weblogic-operator/introspector/userKeyNodeManager.secure"

/-- Fixed path the decoded binary key is written to (line 38). -/
def binFilePath : String := "/tmp/userKeyNodeManager.secure.bin"

/-- Fixed path of the user-config credential file passed to `nmConnect`. -/
def userConfigPath : String := "/weblogic-operator/introspector/userConfigNodeManager.secure"

/-- Value of a character in the base64 alphabet, `none` for any other
character (including the padding character). -/
def b64Val (c : Char) : Option Nat :=
  if 'A' ≤ c ∧ c ≤ 'Z' then some (c.toNat - 65)
  else if 'a' ≤ c ∧ c ≤ 'z' then some (c.toNat - 97 + 26)
  else if '0' ≤ c ∧ c ≤ '9' then some (c.toNat - 48 + 52)
  else if c = '+' then some 62
  else if c = '/' then some 63
  else none

/-- Core of the lenient decoder: the input has already been filtered down to
alphabet characters (padding removed).  Quads give three bytes; a final pair
or triple gives one or two bytes; a single leftover character is an error
(`binascii.Error: incorrect padding`). -/
def decodeQuads : List Char → Option (List Nat)
  | [] => some []
  | [a, b] =>
      match b64Val a, b64Val b with
      | some x, some y => some [x * 4 + y / 16]
      | _, _ => none
  | [a, b, c] =>
      match b64Val a, b64Val b, b64Val c with
      | some x, some y, some z => some [x * 4 + y / 16, y % 16 * 16 + z / 4]
      | _, _, _ => none
  | a :: b :: c :: d :: rest =>
      match b64Val a, b64Val b, b64Val c, b64Val d, decodeQuads rest with
      | some x, some y, some z, some u, some bs =>
          some ((x * 4 + y / 16) :: (y % 16 * 16 + z / 4) :: (z % 4 * 64 + u) :: bs)
      | _, _, _, _, _ => none
  | _ => none

/-- Model of the Python 2 standard-library routine `base64.decodestring`
(`binascii.a2b_base64`) called at line 36 of the script: characters outside
the base64 alphabet — whitespace, newlines and the padding character
included — are skipped, and the remaining 6-bit values are decoded. -/
def decodestring (s : String) : Option (List Nat) :=
  decodeQuads (s.data.filter (fun c => (b64Val c).isSome))

/-- Final quad of a strict base64 string: four alphabet characters, or two
or three alphabet characters completed by padding. -/
def endQuad (a b c d : Char) : Option (List Nat) :=
  if d = '=' then
    if c = '=' then
      match b64Val a, b64Val b with
      | some x, some y => some [x * 4 + y / 16]
      | _, _ => none
    else
      match b64Val a, b64Val b, b64Val c with
      | some x, some y, some z => some [x * 4 + y / 16, y % 16 * 16 + z / 4]
      | _, _, _ => none
  else
    match b64Val a, b64Val b, b64Val c, b64Val d with
    | some x, some y, some z, some u =>
        some [x * 4 + y / 16, y % 16 * 16 + z / 4, z % 4 * 64 + u]
    | _, _, _, _ => none

/-- Modelled from the spec: "standard base64 decoding" — the strict RFC 4648
decoder.  The input must be a sequence of quads of alphabet characters, the
last quad optionally carrying one or two padding characters.  This is the
spec-side definition compared against `decodestring` above. -/
def b64decode : List Char → Option (List Nat)
  | [] => some []
  | a :: b :: c :: d :: rest =>
      match rest with
      | [] => endQuad a b c d
      | _ :: _ =>
          match b64Val a, b64Val b, b64Val c, b64Val d, b64decode rest with
          | some x, some y, some z, some u, some bs =>
              some ((x * 4 + y / 16) :: (y % 16 * 16 + z / 4) :: (z % 4 * 64 + u) :: bs)
          | _, _, _, _, _ => none
  | _ => none

/-- Standard base64 decoding of a string (spec-side). -/
def b64decodeStr (s : String) : Option (List Nat) :=
  b64decode s.data

/-- The `nmConnect` call of lines 45-49, with its five literal keyword
arguments and the two environment-derived ones. -/
def connEvent (domain_name domain_path : String) : Event :=
  Event.nmConnect userConfigPath binFilePath "127.0.0.1" "5556"
    domain_name domain_path "plain"

/-- The `except WLSTException` handler (lines 52-54): call `nmDisconnect()`
again; if that raises, the new exception escapes and `print e` and the final
`exit()` are never reached; otherwise print the caught exception's message
and fall through to `exit()`. -/
def exceptBlock (w : World) (msg : String) (pre : List Event) : List Event × Outcome :=
  match w.disconnectRaises with
  | some m2 => (pre ++ [Event.nmDisconnect], Outcome.uncaughtWLST m2)
  | none => (pre ++ [Event.nmDisconnect, Event.print msg], Outcome.exited 0)

/-- The `try` block (lines 44-51): `nmConnect(...)`, `nmStart(server_name)`,
`nmDisconnect()`.  Each call is attempted in order; a `WLSTException` from
any of them — the trailing `nmDisconnect` included, since it is inside the
`try` — transfers control to `exceptBlock`. -/
def tryBlock (w : World) (domain_name domain_path server_name : String) :
    List Event × Outcome :=
  match w.connectRaises with
  | some m => exceptBlock w m [connEvent domain_name domain_path]
  | none =>
    match w.startRaises with
    | some m => exceptBlock w m [connEvent domain_name domain_path, Event.nmStart server_name]
    | none =>
      match w.disconnectRaises with
      | some m => exceptBlock w m [connEvent domain_name domain_path,
          Event.nmStart server_name, Event.nmDisconnect]
      | none =>
          ([connEvent domain_name domain_path, Event.nmStart server_name, Event.nmDisconnect],
           Outcome.exited 0)

/-- The whole script, line by line: five `getEnvVar` calls (each printing an
error and calling `sys.exit(1)` on a missing variable), two diagnostic
prints, read of the key file, `base64.decodestring`, write of the decoded
bytes, the `try`/`except` block, and the final `exit()` (exit code 0). -/
def runScript (w : World) : List Event × Outcome :=
  match w.env "DOMAIN_UID" with
  | none => ([Event.print (errMsg "DOMAIN_UID")], Outcome.exited 1)
  | some _domain_uid =>
  match w.env "SERVER_NAME" with
  | none => ([Event.print (errMsg "SERVER_NAME")], Outcome.exited 1)
  | some server_name =>
  match w.env "DOMAIN_NAME" with
  | none => ([Event.print (errMsg "DOMAIN_NAME")], Outcome.exited 1)
  | some domain_name =>
  match w.env "DOMAIN_HOME" with
  | none => ([Event.print (errMsg "DOMAIN_HOME")], Outcome.exited 1)
  | some domain_path =>
  match w.env "SERVICE_NAME" with
  | none => ([Event.print (errMsg "SERVICE_NAME")], Outcome.exited 1)
  | some _service_name =>
  let diag := [Event.print ("domain path is " ++ domain_path),
               Event.print ("server name is " ++ server_name)]
  match w.readFile keyFilePath with
  | none => (diag ++ [Event.fileRead keyFilePath], Outcome.ioError)
  | some contents =>
  match decodestring contents with
  | none => (diag ++ [Event.fileRead keyFilePath], Outcome.decodeError)
  | some decoded =>
  if w.writeOk binFilePath then
    (diag ++ [Event.fileRead keyFilePath, Event.fileWrite binFilePath decoded]
          ++ (tryBlock w domain_name domain_path server_name).1,
     (tryBlock w domain_name domain_path server_name).2)
  else
    (diag ++ [Event.fileRead keyFilePath], Outcome.ioError)

/-- Recognizer for file-write events. -/
def isFileWrite : Event → Bool
  | Event.fileWrite _ _ => true
  | _ => false

/-- Recognizer for network events (the three node-manager calls). -/
def isNetwork : Event → Bool
  | Event.nmConnect _ _ _ _ _ _ _ => true
  | Event.nmStart _ => true
  | Event.nmDisconnect => true
  | _ => false

/-- Recognizer for `nmStart` events. -/
def isStart : Event → Bool
  | Event.nmStart _ => true
  | _ => false

/-- Recognizer for `nmDisconnect` events. -/
def isDisconnect : Event → Bool
  | Event.nmDisconnect => true
  | _ => false

/-- The padding character is not in the base64 alphabet. -/
theorem b64Val_pad : b64Val '=' = none := by decide

theorem b64decode_filter (cs : List Char) (d : List Nat)
    (h : b64decode cs = some d) :
    decodeQuads (cs.filter (fun c => (b64Val c).isSome)) = some d := by
  induction cs using b64decode.induct generalizing d with
  | case1 =>
      simp only [b64decode] at h
      simp only [List.filter_nil, decodeQuads]
      exact h
  | case2 a b c dd =>
      simp only [b64decode, endQuad] at h
      by_cases hd : dd = '='
      · by_cases hc : c = '='
        · subst hd; subst hc
          simp only [if_pos rfl] at h
          cases ha : b64Val a with
          | none => simp [ha] at h
          | some x =>
            cases hb : b64Val b with
            | none => simp [ha, hb] at h
            | some y =>
              simp [ha, hb] at h
              simp [List.filter_cons, ha, hb, b64Val_pad, decodeQuads, h]
        · subst hd
          simp only [if_pos rfl, if_neg hc] at h
          cases ha : b64Val a with
          | none => simp [ha] at h
          | some x =>
            cases hb : b64Val b with
            | none => simp [ha, hb] at h
            | some y =>
              cases hcc : b64Val c with
              | none => simp [ha, hb, hcc] at h
              | some z =>
                simp [ha, hb, hcc] at h
                simp [List.filter_cons, ha, hb, hcc, b64Val_pad, decodeQuads, h]
      · simp only [if_neg hd] at h
        cases ha : b64Val a with
        | none => simp [ha] at h
        | some x =>
          cases hb : b64Val b with
          | none => simp [ha, hb] at h
          | some y =>
            cases hcc : b64Val c with
            | none => simp [ha, hb, hcc] at h
            | some z =>
              cases hdd : b64Val dd with
              | none => simp [ha, hb, hcc, hdd] at h
              | some u =>
                simp [ha, hb, hcc, hdd] at h
                simp [List.filter_cons, ha, hb, hcc, hdd, decodeQuads, h]
  | case3 a b c dd hd tl x y z u bs hdd hcc hb ha hrest ih =>
      simp only [b64decode, ha, hb, hcc, hdd, hrest] at h
      have ihr := ih bs hrest
      have hfil : List.filter (fun c => (b64Val c).isSome) (a :: b :: c :: dd :: hd :: tl)
          = a :: b :: c :: dd :: List.filter (fun c => (b64Val c).isSome) (hd :: tl) := by
        simp [List.filter_cons, ha, hb, hcc, hdd]
      rw [hfil]
      simp only [decodeQuads, ha, hb, hcc, hdd, ihr]
      exact h
  | case4 a b c dd hd tl habs ih =>
      exfalso
      simp only [b64decode] at h
      cases ha : b64Val a with
      | none => simp [ha] at h
      | some x =>
        cases hb : b64Val b with
        | none => simp [ha, hb] at h
        | some y =>
          cases hcc : b64Val c with
          | none => simp [ha, hb, hcc] at h
          | some z =>
            cases hdd : b64Val dd with
            | none => simp [ha, hb, hcc, hdd] at h
            | some u =>
              cases hrest : b64decode (hd :: tl) with
              | none => simp [ha, hb, hcc, hdd, hrest] at h
              | some bs => exact habs x y z u bs ha hb hcc hdd hrest
  | case5 t h1 h2 =>
      exfalso
      match t, h1, h2 with
      | [], h1, _ => exact h1 rfl
      | [a], _, _ => simp [b64decode] at h
      | [a, b], _, _ => simp [b64decode] at h
      | [a, b, c], _, _ => simp [b64decode] at h
      | a :: b :: c :: dd :: rest, _, h2 => exact h2 a b c dd rest rfl

/-- If the first required variable (in program order) whose lookup fails is
`v`, the whole run is exactly: print the error naming `v`, exit 1. -/
theorem runScript_find_missing (w : World) (v : String)
    (h : requiredVars.find? (fun x => (w.env x).isNone) = some v) :
    w.env v = none ∧ v ∈ requiredVars ∧
    runScript w = ([Event.print (errMsg v)], Outcome.exited 1) := by
  cases h1 : w.env "DOMAIN_UID" with
  | none =>
      simp [requiredVars, List.find?, h1] at h
      subst h
      exact ⟨h1, by simp [requiredVars], by simp [runScript, h1]⟩
  | some u1 =>
  cases h2 : w.env "SERVER_NAME" with
  | none =>
      simp [requiredVars, List.find?, h1, h2] at h
      subst h
      exact ⟨h2, by simp [requiredVars], by simp [runScript, h1, h2]⟩
  | some u2 =>
  cases h3 : w.env "DOMAIN_NAME" with
  | none =>
      simp [requiredVars, List.find?, h1, h2, h3] at h
      subst h
      exact ⟨h3, by simp [requiredVars], by simp [runScript, h1, h2, h3]⟩
  | some u3 =>
  cases h4 : w.env "DOMAIN_HOME" with
  | none =>
      simp [requiredVars, List.find?, h1, h2, h3, h4] at h
      subst h
      exact ⟨h4, by simp [requiredVars], by simp [runScript, h1, h2, h3, h4]⟩
  | some u4 =>
  cases h5 : w.env "SERVICE_NAME" with
  | none =>
      simp [requiredVars, List.find?, h1, h2, h3, h4, h5] at h
      subst h
      exact ⟨h5, by simp [requiredVars], by simp [runScript, h1, h2, h3, h4, h5]⟩
  | some u5 =>
      exfalso
      simp [requiredVars, List.find?, h1, h2, h3, h4, h5] at h

/-- If no required variable is missing, all five lookups succeed. -/
theorem runScript_find_none (w : World)
    (h : requiredVars.find? (fun x => (w.env x).isNone) = none) :
    ∃ u1 u2 u3 u4 u5,
      w.env "DOMAIN_UID" = some u1 ∧ w.env "SERVER_NAME" = some u2 ∧
      w.env "DOMAIN_NAME" = some u3 ∧ w.env "DOMAIN_HOME" = some u4 ∧
      w.env "SERVICE_NAME" = some u5 := by
  rw [List.find?_eq_none] at h
  have g1 := h "DOMAIN_UID" (by simp [requiredVars])
  have g2 := h "SERVER_NAME" (by simp [requiredVars])
  have g3 := h "DOMAIN_NAME" (by simp [requiredVars])
  have g4 := h "DOMAIN_HOME" (by simp [requiredVars])
  have g5 := h "SERVICE_NAME" (by simp [requiredVars])
  obtain ⟨u1, e1⟩ := Option.ne_none_iff_exists'.mp (by simpa [Option.isNone_iff_eq_none] using g1)
  obtain ⟨u2, e2⟩ := Option.ne_none_iff_exists'.mp (by simpa [Option.isNone_iff_eq_none] using g2)
  obtain ⟨u3, e3⟩ := Option.ne_none_iff_exists'.mp (by simpa [Option.isNone_iff_eq_none] using g3)
  obtain ⟨u4, e4⟩ := Option.ne_none_iff_exists'.mp (by simpa [Option.isNone_iff_eq_none] using g4)
  obtain ⟨u5, e5⟩ := Option.ne_none_iff_exists'.mp (by simpa [Option.isNone_iff_eq_none] using g5)
  exact ⟨u1, u2, u3, u4, u5, e1, e2, e3, e4, e5⟩

/-- With all five variables set, the trace starts with the two diagnostic
prints, whatever the rest of the world does. -/
theorem runScript_diag (w : World) (u1 u2 u3 u4 u5 : String)
    (h1 : w.env "DOMAIN_UID" = some u1) (h2 : w.env "SERVER_NAME" = some u2)
    (h3 : w.env "DOMAIN_NAME" = some u3) (h4 : w.env "DOMAIN_HOME" = some u4)
    (h5 : w.env "SERVICE_NAME" = some u5) :
    ∃ rest, (runScript w).1 =
      Event.print ("domain path is " ++ u4) ::
      Event.print ("server name is " ++ u2) :: rest := by
  rcases hr : w.readFile keyFilePath with _ | contents
  · exact ⟨[Event.fileRead keyFilePath], by simp [runScript, h1, h2, h3, h4, h5, hr]⟩
  · rcases hd : decodestring contents with _ | decoded
    · exact ⟨[Event.fileRead keyFilePath], by simp [runScript, h1, h2, h3, h4, h5, hr, hd]⟩
    · by_cases hw : w.writeOk binFilePath
      · exact ⟨[Event.fileRead keyFilePath, Event.fileWrite binFilePath decoded]
            ++ (tryBlock w u3 u4 u2).1,
          by simp [runScript, h1, h2, h3, h4, h5, hr, hd, hw]⟩
      · exact ⟨[Event.fileRead keyFilePath],
          by simp [runScript, h1, h2, h3, h4, h5, hr, hd, hw]⟩

/-- Value of `tryBlock` when `nmConnect` raises and the cleanup `nmDisconnect`
returns normally. -/
theorem tryBlock_conn_fail (w : World) (dn dp sn m : String)
    (hc : w.connectRaises = some m) (hd2 : w.disconnectRaises = none) :
    tryBlock w dn dp sn =
      ([connEvent dn dp, Event.nmDisconnect, Event.print m], Outcome.exited 0) := by
  simp [tryBlock, exceptBlock, hc, hd2]

/-- Value of `tryBlock` when `nmStart` raises and the cleanup `nmDisconnect`
returns normally. -/
theorem tryBlock_start_fail (w : World) (dn dp sn m : String)
    (hc : w.connectRaises = none) (hs : w.startRaises = some m)
    (hd2 : w.disconnectRaises = none) :
    tryBlock w dn dp sn =
      ([connEvent dn dp, Event.nmStart sn, Event.nmDisconnect, Event.print m],
       Outcome.exited 0) := by
  simp [tryBlock, exceptBlock, hc, hs, hd2]

/-- Value of `tryBlock` when all three node-manager calls return normally. -/
theorem tryBlock_ok (w : World) (dn dp sn : String)
    (hc : w.connectRaises = none) (hs : w.startRaises = none)
    (hd2 : w.disconnectRaises = none) :
    tryBlock w dn dp sn =
      ([connEvent dn dp, Event.nmStart sn, Event.nmDisconnect], Outcome.exited 0) := by
  simp [tryBlock, exceptBlock, hc, hs, hd2]

/-- Value of `tryBlock` when `nmConnect` raises and the cleanup `nmDisconnect` also
raises: the second exception escapes. -/
theorem tryBlock_conn_fail_disc_fail (w : World) (dn dp sn m m2 : String)
    (hc : w.connectRaises = some m) (hd2 : w.disconnectRaises = some m2) :
    tryBlock w dn dp sn =
      ([connEvent dn dp, Event.nmDisconnect], Outcome.uncaughtWLST m2) := by
  simp [tryBlock, exceptBlock, hc, hd2]

/-- Value of `tryBlock` when `nmStart` raises and the cleanup `nmDisconnect` also
raises. -/
theorem tryBlock_start_fail_disc_fail (w : World) (dn dp sn m m2 : String)
    (hc : w.connectRaises = none) (hs : w.startRaises = some m)
    (hd2 : w.disconnectRaises = some m2) :
    tryBlock w dn dp sn =
      ([connEvent dn dp, Event.nmStart sn, Event.nmDisconnect], Outcome.uncaughtWLST m2) := by
  simp [tryBlock, exceptBlock, hc, hs, hd2]

/-- Value of `tryBlock` when connect and start succeed but the in-`try` `nmDisconnect`
raises: the handler's second `nmDisconnect` raises again and escapes. -/
theorem tryBlock_disc_fail (w : World) (dn dp sn m2 : String)
    (hc : w.connectRaises = none) (hs : w.startRaises = none)
    (hd2 : w.disconnectRaises = some m2) :
    tryBlock w dn dp sn =
      ([connEvent dn dp, Event.nmStart sn, Event.nmDisconnect, Event.nmDisconnect],
       Outcome.uncaughtWLST m2) := by
  simp [tryBlock, exceptBlock, hc, hs, hd2]

/-- With all variables set and the decode step succeeding, the run is the
two diagnostic prints, the read, the write of the decoded bytes, and then
whatever the `try`/`except` block does. -/
theorem runScript_main (w : World) (u1 u2 u3 u4 u5 contents : String) (decoded : List Nat)
    (h1 : w.env "DOMAIN_UID" = some u1) (h2 : w.env "SERVER_NAME" = some u2)
    (h3 : w.env "DOMAIN_NAME" = some u3) (h4 : w.env "DOMAIN_HOME" = some u4)
    (h5 : w.env "SERVICE_NAME" = some u5)
    (hr : w.readFile keyFilePath = some contents)
    (hdc : decodestring contents = some decoded)
    (hw : w.writeOk binFilePath = true) :
    runScript w =
      (Event.print ("domain path is " ++ u4) :: Event.print ("server name is " ++ u2) ::
        Event.fileRead keyFilePath :: Event.fileWrite binFilePath decoded ::
        (tryBlock w u3 u4 u2).1,
       (tryBlock w u3 u4 u2).2) := by
  simp [runScript, h1, h2, h3, h4, h5, hr, hdc, hw]

/-- With all variables set and the read failing, the run stops at the read
with an uncaught `IOError`. -/
theorem runScript_read_fail (w : World) (u1 u2 u3 u4 u5 : String)
    (h1 : w.env "DOMAIN_UID" = some u1) (h2 : w.env "SERVER_NAME" = some u2)
    (h3 : w.env "DOMAIN_NAME" = some u3) (h4 : w.env "DOMAIN_HOME" = some u4)
    (h5 : w.env "SERVICE_NAME" = some u5)
    (hr : w.readFile keyFilePath = none) :
    runScript w =
      ([Event.print ("domain path is " ++ u4), Event.print ("server name is " ++ u2),
        Event.fileRead keyFilePath], Outcome.ioError) := by
  simp [runScript, h1, h2, h3, h4, h5, hr]

/-- With all variables set, the read succeeding and the write failing, the
run stops after the read with an uncaught `IOError`. -/
theorem runScript_write_fail (w : World) (u1 u2 u3 u4 u5 contents : String)
    (decoded : List Nat)
    (h1 : w.env "DOMAIN_UID" = some u1) (h2 : w.env "SERVER_NAME" = some u2)
    (h3 : w.env "DOMAIN_NAME" = some u3) (h4 : w.env "DOMAIN_HOME" = some u4)
    (h5 : w.env "SERVICE_NAME" = some u5)
    (hr : w.readFile keyFilePath = some contents)
    (hdc : decodestring contents = some decoded)
    (hw : w.writeOk binFilePath = false) :
    runScript w =
      ([Event.print ("domain path is " ++ u4), Event.print ("server name is " ++ u2),
        Event.fileRead keyFilePath], Outcome.ioError) := by
  simp [runScript, h1, h2, h3, h4, h5, hr, hdc, hw]

/-- With all variables set and the decode failing, the run stops after the
read with an uncaught decode error. -/
theorem runScript_decode_fail (w : World) (u1 u2 u3 u4 u5 contents : String)
    (h1 : w.env "DOMAIN_UID" = some u1) (h2 : w.env "SERVER_NAME" = some u2)
    (h3 : w.env "DOMAIN_NAME" = some u3) (h4 : w.env "DOMAIN_HOME" = some u4)
    (h5 : w.env "SERVICE_NAME" = some u5)
    (hr : w.readFile keyFilePath = some contents)
    (hdc : decodestring contents = none) :
    runScript w =
      ([Event.print ("domain path is " ++ u4), Event.print ("server name is " ++ u2),
        Event.fileRead keyFilePath], Outcome.decodeError) := by
  simp [runScript, h1, h2, h3, h4, h5, hr, hdc]

/-- With all variables set, the run's outcome is one of: exit 0, an uncaught
I/O error, an uncaught decode error, or an uncaught WLSTException — never
`exited 1`. -/
theorem runScript_outcome_all_set (w : World) (u1 u2 u3 u4 u5 : String)
    (h1 : w.env "DOMAIN_UID" = some u1) (h2 : w.env "SERVER_NAME" = some u2)
    (h3 : w.env "DOMAIN_NAME" = some u3) (h4 : w.env "DOMAIN_HOME" = some u4)
    (h5 : w.env "SERVICE_NAME" = some u5) :
    (runScript w).2 = Outcome.exited 0 ∨ (runScript w).2 = Outcome.ioError ∨
    (runScript w).2 = Outcome.decodeError ∨
    ∃ m, (runScript w).2 = Outcome.uncaughtWLST m := by
  rcases hr : w.readFile keyFilePath with _ | contents
  · right; left
    rw [runScript_read_fail w u1 u2 u3 u4 u5 h1 h2 h3 h4 h5 hr]
  · rcases hdc : decodestring contents with _ | decoded
    · right; right; left
      rw [runScript_decode_fail w u1 u2 u3 u4 u5 contents h1 h2 h3 h4 h5 hr hdc]
    · by_cases hw : w.writeOk binFilePath
      · rw [runScript_main w u1 u2 u3 u4 u5 contents decoded h1 h2 h3 h4 h5 hr hdc hw]
        rcases hc : w.connectRaises with _ | m
        · rcases hs : w.startRaises with _ | m
          · rcases hd2 : w.disconnectRaises with _ | m2
            · left; rw [tryBlock_ok w u3 u4 u2 hc hs hd2]
            · right; right; right
              exact ⟨m2, by rw [tryBlock_disc_fail w u3 u4 u2 m2 hc hs hd2]⟩
          · rcases hd2 : w.disconnectRaises with _ | m2
            · left; rw [tryBlock_start_fail w u3 u4 u2 m hc hs hd2]
            · right; right; right
              exact ⟨m2, by rw [tryBlock_start_fail_disc_fail w u3 u4 u2 m m2 hc hs hd2]⟩
        · rcases hd2 : w.disconnectRaises with _ | m2
          · left; rw [tryBlock_conn_fail w u3 u4 u2 m hc hd2]
          · right; right; right
            exact ⟨m2, by rw [tryBlock_conn_fail_disc_fail w u3 u4 u2 m m2 hc hd2]⟩
      · right; left
        rw [runScript_write_fail w u1 u2 u3 u4 u5 contents decoded h1 h2 h3 h4 h5 hr hdc
          (by simpa using hw)]

/-- Environment of the spec's worked scenario (§8). -/
def specEnv : String → Option String := fun v =>
  if v = "DOMAIN_UID" then some "uid1"
  else if v = "SERVER_NAME" then some "server1"
  else if v = "DOMAIN_NAME" then some "domain1"
  else if v = "DOMAIN_HOME" then some "/shared/domain"
  else if v = "SERVICE_NAME" then some "svc1"
  else none

/-- Concrete world: spec scenario, key file holding base64 of
"secretbytes", every external call succeeding. -/
def wHappy : World :=
  ⟨specEnv, fun _ => some "c2VjcmV0Ynl0ZXM=", fun _ => true, none, none, none⟩

/-- Concrete world: nothing set, nothing readable. -/
def wAllMissing : World :=
  ⟨fun _ => none, fun _ => none, fun _ => false, none, none, none⟩

/-- Concrete world: only `DOMAIN_UID` set. -/
def wSecondMissing : World :=
  { wHappy with env := fun v => if v = "DOMAIN_UID" then some "uid1" else none }

/-- Concrete world: everything set but the key file unreadable. -/
def wReadFail : World := { wHappy with readFile := fun _ => none }

/-- Concrete world: `nmConnect` raises, cleanup `nmDisconnect` succeeds. -/
def wConnFail : World := { wHappy with connectRaises := some "boom" }

/-- Concrete world: `nmConnect` raises and the cleanup `nmDisconnect`
raises too. -/
def wDiscFail : World :=
  { wHappy with connectRaises := some "boom", disconnectRaises := some "dboom" }

/-- C1: if any of the five required environment variables is unset, the
script prints a single fatal configuration error naming a missing required
variable, terminates with exit code 1, and its trace contains no file-write
event and no network event. -/
theorem env_missing_exits_one (w : World) (v : String)
    (hv : v ∈ requiredVars) (hnone : w.env v = none) :
    (runScript w).2 = Outcome.exited 1 ∧
    (∃ m, m ∈ requiredVars ∧ w.env m = none ∧
        (runScript w).1 = [Event.print (errMsg m)]) ∧
    ((runScript w).1).filter isFileWrite = [] ∧
    ((runScript w).1).filter isNetwork = [] := by
  cases hf : requiredVars.find? (fun x => (w.env x).isNone) with
  | none =>
      exfalso
      obtain ⟨a1, a2, a3, a4, a5, e1, e2, e3, e4, e5⟩ := runScript_find_none w hf
      simp [requiredVars] at hv
      rcases hv with rfl | rfl | rfl | rfl | rfl <;> simp_all
  | some m =>
      obtain ⟨hmn, hmm, hrun⟩ := runScript_find_missing w m hf
      refine ⟨by simp [hrun], ⟨m, hmm, hmn, by simp [hrun]⟩, ?_, ?_⟩
      · simp [hrun, isFileWrite]
      · simp [hrun, isNetwork]

/-- Witness for C1 at `wAllMissing`. -/
theorem env_missing_exits_one_w :
    (runScript wAllMissing).2 = Outcome.exited 1 ∧
    (∃ m, m ∈ requiredVars ∧ wAllMissing.env m = none ∧
        (runScript wAllMissing).1 = [Event.print (errMsg m)]) ∧
    ((runScript wAllMissing).1).filter isFileWrite = [] ∧
    ((runScript wAllMissing).1).filter isNetwork = [] :=
  env_missing_exits_one wAllMissing "DOMAIN_UID" (by decide) rfl

/-- C10: the variables are tested in the program order of `requiredVars`, so
the single error line names exactly the first missing one; the diagnostic
prints echoing the domain path and the server name open the trace only when
all five lookups succeeded. -/
theorem env_checked_in_order (w : World) :
    (∀ v, requiredVars.find? (fun x => (w.env x).isNone) = some v →
        runScript w = ([Event.print (errMsg v)], Outcome.exited 1)) ∧
    (requiredVars.find? (fun x => (w.env x).isNone) = none →
        ∃ dp sn rest, w.env "DOMAIN_HOME" = some dp ∧ w.env "SERVER_NAME" = some sn ∧
          (runScript w).1 = Event.print ("domain path is " ++ dp) ::
            Event.print ("server name is " ++ sn) :: rest) := by
  constructor
  · intro v h
    exact (runScript_find_missing w v h).2.2
  · intro h
    obtain ⟨u1, u2, u3, u4, u5, e1, e2, e3, e4, e5⟩ := runScript_find_none w h
    obtain ⟨rest, hrest⟩ := runScript_diag w u1 u2 u3 u4 u5 e1 e2 e3 e4 e5
    exact ⟨u4, u2, rest, e4, e2, hrest⟩

/-- Witness for C10 at `wSecondMissing`: `DOMAIN_UID` is set and everything
else is missing, and the error names `SERVER_NAME`, the first missing one. -/
theorem env_checked_in_order_w :
    runScript wSecondMissing = ([Event.print (errMsg "SERVER_NAME")], Outcome.exited 1) :=
  (env_checked_in_order wSecondMissing).1 "SERVER_NAME" (by decide)

/-- Counterexample to C2 as stated: in `wReadFail` no required variable is
missing, yet the process does not exit with code 0 — the read of the key
file raises an uncaught I/O error, so the script never reaches any exit
call. -/
theorem exit_zero_claim_fails_on_io_error :
    (∀ v ∈ requiredVars, (wReadFail.env v).isSome) ∧
    (runScript wReadFail).2 = Outcome.ioError ∧
    (runScript wReadFail).2 ≠ Outcome.exited 0 := by decide

/-- C2 (amended): the run exits with code 1 exactly when one of the five
required variables is unset, and any exit code it produces is 0 or 1; the
paths on which the key file cannot be read or decoded, the output file
cannot be written, or the cleanup disconnect raises, terminate by an
uncaught error instead of an exit call. -/
theorem exit_code_characterization (w : World) :
    ((runScript w).2 = Outcome.exited 1 ↔ ∃ v ∈ requiredVars, w.env v = none) ∧
    (∀ c, (runScript w).2 = Outcome.exited c → c = 0 ∨ c = 1) := by
  cases hf : requiredVars.find? (fun x => (w.env x).isNone) with
  | some m =>
      obtain ⟨hmn, hmm, hrun⟩ := runScript_find_missing w m hf
      constructor
      · simp only [hrun]
        exact ⟨fun _ => ⟨m, hmm, hmn⟩, fun _ => trivial⟩
      · intro c hc
        rw [hrun] at hc
        simp at hc
        right; exact hc.symm
  | none =>
      have hnomiss : ¬∃ v ∈ requiredVars, w.env v = none := by
        rw [List.find?_eq_none] at hf
        rintro ⟨v, hvm, hvn⟩
        exact hf v hvm (by simp [hvn])
      obtain ⟨u1, u2, u3, u4, u5, e1, e2, e3, e4, e5⟩ := runScript_find_none w hf
      have hout := runScript_outcome_all_set w u1 u2 u3 u4 u5 e1 e2 e3 e4 e5
      constructor
      · constructor
        · intro h1x
          exfalso
          rcases hout with h | h | h | ⟨m, h⟩ <;> rw [h1x] at h <;> simp at h
        · intro hex
          exact absurd hex hnomiss
      · intro c hc
        rcases hout with h | h | h | ⟨m, h⟩ <;> rw [hc] at h <;> simp at h
        left; exact h

/-- Witness for C2's amended theorem at `wAllMissing`. -/
theorem exit_code_characterization_w :
    (runScript wAllMissing).2 = Outcome.exited 1 :=
  (exit_code_characterization wAllMissing).1.mpr ⟨"DOMAIN_UID", by decide, rfl⟩

/-- The `try`/`except` block performs no file writes, whatever the three
calls do. -/
theorem tryBlock_filter_writes (w : World) (dn dp sn : String) :
    ((tryBlock w dn dp sn).1).filter isFileWrite = [] := by
  rcases hc : w.connectRaises with _ | m <;> rcases hs : w.startRaises with _ | m' <;>
    rcases hd2 : w.disconnectRaises with _ | m2 <;>
      simp [tryBlock, exceptBlock, hc, hs, hd2, isFileWrite, connEvent]

/-- The decoded bytes of the spec's scenario string "secretbytes". -/
def secretBytes : List Nat := [115, 101, 99, 114, 101, 116, 98, 121, 116, 101, 115]

/-- C3: when `nmConnect` or `nmStart` raises a WLSTException and the cleanup
`nmDisconnect` returns normally, the exception is caught, the disconnect is
performed, the exception's message is printed right after it, and the
process exits with code 0. -/
theorem connect_failure_caught (w : World) (u1 u2 u3 u4 u5 contents m : String)
    (decoded : List Nat)
    (h1 : w.env "DOMAIN_UID" = some u1) (h2 : w.env "SERVER_NAME" = some u2)
    (h3 : w.env "DOMAIN_NAME" = some u3) (h4 : w.env "DOMAIN_HOME" = some u4)
    (h5 : w.env "SERVICE_NAME" = some u5)
    (hr : w.readFile keyFilePath = some contents)
    (hdc : decodestring contents = some decoded)
    (hw : w.writeOk binFilePath = true)
    (hfail : w.connectRaises = some m ∨ (w.connectRaises = none ∧ w.startRaises = some m))
    (hd2 : w.disconnectRaises = none) :
    (runScript w).2 = Outcome.exited 0 ∧
    ∃ pre, (runScript w).1 = pre ++ [Event.nmDisconnect, Event.print m] := by
  have hmain := runScript_main w u1 u2 u3 u4 u5 contents decoded h1 h2 h3 h4 h5 hr hdc hw
  rcases hfail with hc | ⟨hc, hs⟩
  · rw [hmain, tryBlock_conn_fail w u3 u4 u2 m hc hd2]
    exact ⟨rfl, ⟨[Event.print ("domain path is " ++ u4), Event.print ("server name is " ++ u2),
      Event.fileRead keyFilePath, Event.fileWrite binFilePath decoded,
      connEvent u3 u4], by simp⟩⟩
  · rw [hmain, tryBlock_start_fail w u3 u4 u2 m hc hs hd2]
    exact ⟨rfl, ⟨[Event.print ("domain path is " ++ u4), Event.print ("server name is " ++ u2),
      Event.fileRead keyFilePath, Event.fileWrite binFilePath decoded,
      connEvent u3 u4, Event.nmStart u2], by simp⟩⟩

/-- Witness for C3 at `wConnFail`. -/
theorem connect_failure_caught_w :
    (runScript wConnFail).2 = Outcome.exited 0 ∧
    ∃ pre, (runScript wConnFail).1 = pre ++ [Event.nmDisconnect, Event.print "boom"] :=
  connect_failure_caught wConnFail "uid1" "server1" "domain1" "/shared/domain" "svc1"
    "c2VjcmV0Ynl0ZXM=" "boom" secretBytes rfl rfl rfl rfl rfl rfl (by decide) rfl
    (Or.inl rfl) rfl

/-- C4: when the key file holds a valid standard-base64 string, the trace
contains exactly one file write, at `/tmp/userKeyNodeManager.secure.bin`, of
the standard base64 decoding of that string (the script's legacy
`decodestring` agrees with the strict decoder there). -/
theorem decoded_bytes_written (w : World) (u1 u2 u3 u4 u5 contents : String) (d : List Nat)
    (h1 : w.env "DOMAIN_UID" = some u1) (h2 : w.env "SERVER_NAME" = some u2)
    (h3 : w.env "DOMAIN_NAME" = some u3) (h4 : w.env "DOMAIN_HOME" = some u4)
    (h5 : w.env "SERVICE_NAME" = some u5)
    (hr : w.readFile keyFilePath = some contents)
    (hv : b64decodeStr contents = some d)
    (hw : w.writeOk binFilePath = true) :
    ((runScript w).1).filter isFileWrite = [Event.fileWrite binFilePath d] := by
  have hdc : decodestring contents = some d := b64decode_filter contents.data d hv
  rw [runScript_main w u1 u2 u3 u4 u5 contents d h1 h2 h3 h4 h5 hr hdc hw]
  simp [isFileWrite, tryBlock_filter_writes]

/-- Witness for C4 at `wHappy`. -/
theorem decoded_bytes_written_w :
    ((runScript wHappy).1).filter isFileWrite = [Event.fileWrite binFilePath secretBytes] :=
  decoded_bytes_written wHappy "uid1" "server1" "domain1" "/shared/domain" "svc1"
    "c2VjcmV0Ynl0ZXM=" secretBytes rfl rfl rfl rfl rfl rfl (by decide) rfl

/-- C5: with everything set and all three node-manager calls succeeding, the
trace is exactly the two prints, the read, the write, the connect, one
`nmStart` of the configured server name, and one `nmDisconnect`, in that
order, and the process exits 0. -/
theorem one_start_one_disconnect (w : World) (u1 u2 u3 u4 u5 contents : String)
    (decoded : List Nat)
    (h1 : w.env "DOMAIN_UID" = some u1) (h2 : w.env "SERVER_NAME" = some u2)
    (h3 : w.env "DOMAIN_NAME" = some u3) (h4 : w.env "DOMAIN_HOME" = some u4)
    (h5 : w.env "SERVICE_NAME" = some u5)
    (hr : w.readFile keyFilePath = some contents)
    (hdc : decodestring contents = some decoded)
    (hw : w.writeOk binFilePath = true)
    (hc : w.connectRaises = none) (hs : w.startRaises = none)
    (hd2 : w.disconnectRaises = none) :
    (runScript w).1 =
      [Event.print ("domain path is " ++ u4), Event.print ("server name is " ++ u2),
       Event.fileRead keyFilePath, Event.fileWrite binFilePath decoded,
       connEvent u3 u4, Event.nmStart u2, Event.nmDisconnect] ∧
    ((runScript w).1).filter isStart = [Event.nmStart u2] ∧
    ((runScript w).1).filter isDisconnect = [Event.nmDisconnect] ∧
    (runScript w).2 = Outcome.exited 0 := by
  rw [runScript_main w u1 u2 u3 u4 u5 contents decoded h1 h2 h3 h4 h5 hr hdc hw,
    tryBlock_ok w u3 u4 u2 hc hs hd2]
  refine ⟨by simp, ?_, ?_, rfl⟩
  · simp [isStart, connEvent]
  · simp [isDisconnect, connEvent]

/-- Witness for C5 at `wHappy`. -/
theorem one_start_one_disconnect_w :
    (runScript wHappy).1 =
      [Event.print ("domain path is " ++ "/shared/domain"),
       Event.print ("server name is " ++ "server1"),
       Event.fileRead keyFilePath, Event.fileWrite binFilePath secretBytes,
       connEvent "domain1" "/shared/domain", Event.nmStart "server1", Event.nmDisconnect] ∧
    ((runScript wHappy).1).filter isStart = [Event.nmStart "server1"] ∧
    ((runScript wHappy).1).filter isDisconnect = [Event.nmDisconnect] ∧
    (runScript wHappy).2 = Outcome.exited 0 :=
  one_start_one_disconnect wHappy "uid1" "server1" "domain1" "/shared/domain" "svc1"
    "c2VjcmV0Ynl0ZXM=" secretBytes rfl rfl rfl rfl rfl rfl (by decide) rfl rfl rfl rfl

/-- Any `nmConnect` event in the `try`/`except` trace carries exactly the
fixed literal arguments and the domain name and path the block was given. -/
theorem tryBlock_connect_mem (w : World) (dn0 dp0 sn0 ucf ukf h p dn dd t : String)
    (hm : Event.nmConnect ucf ukf h p dn dd t ∈ (tryBlock w dn0 dp0 sn0).1) :
    ucf = userConfigPath ∧ ukf = binFilePath ∧ h = "127.0.0.1" ∧ p = "5556" ∧
    t = "plain" ∧ dn = dn0 ∧ dd = dp0 := by
  rcases hc : w.connectRaises with _ | m <;> rcases hs : w.startRaises with _ | m' <;>
    rcases hd2 : w.disconnectRaises with _ | m2 <;>
      simp [tryBlock, exceptBlock, hc, hs, hd2, connEvent] at hm <;> tauto

/-- C6: every connect call in any run receives the fixed arguments
(user-config path, decoded-key path, loopback host, port 5556, plain
protocol) together with the values of DOMAIN_NAME and DOMAIN_HOME from the
environment. -/
theorem connect_args_fixed (w : World) (ucf ukf h p dn dd t : String)
    (hm : Event.nmConnect ucf ukf h p dn dd t ∈ (runScript w).1) :
    ucf = userConfigPath ∧ ukf = binFilePath ∧ h = "127.0.0.1" ∧ p = "5556" ∧
    t = "plain" ∧ w.env "DOMAIN_NAME" = some dn ∧ w.env "DOMAIN_HOME" = some dd := by
  cases hf : requiredVars.find? (fun x => (w.env x).isNone) with
  | some m =>
      obtain ⟨-, -, hrun⟩ := runScript_find_missing w m hf
      rw [hrun] at hm
      simp at hm
  | none =>
      obtain ⟨u1, u2, u3, u4, u5, e1, e2, e3, e4, e5⟩ := runScript_find_none w hf
      rcases hr : w.readFile keyFilePath with _ | contents
      · rw [runScript_read_fail w u1 u2 u3 u4 u5 e1 e2 e3 e4 e5 hr] at hm
        simp at hm
      · rcases hdc : decodestring contents with _ | decoded
        · rw [runScript_decode_fail w u1 u2 u3 u4 u5 contents e1 e2 e3 e4 e5 hr hdc] at hm
          simp at hm
        · by_cases hw : w.writeOk binFilePath
          · rw [runScript_main w u1 u2 u3 u4 u5 contents decoded e1 e2 e3 e4 e5 hr hdc hw] at hm
            simp only [List.mem_cons, Prod.fst] at hm
            rcases hm with hm | hm | hm | hm | hm
            · cases hm
            · cases hm
            · cases hm
            · cases hm
            · obtain ⟨a, b, c, d, e, f, g⟩ := tryBlock_connect_mem w u3 u4 u2 ucf ukf h p dn dd t hm
              subst f; subst g
              exact ⟨a, b, c, d, e, e3, e4⟩
          · rw [runScript_write_fail w u1 u2 u3 u4 u5 contents decoded e1 e2 e3 e4 e5 hr hdc
              (by simpa using hw)] at hm
            simp at hm

/-- Witness for C6 at `wHappy`. -/
theorem connect_args_fixed_w :
    userConfigPath = userConfigPath ∧ binFilePath = binFilePath ∧
    "127.0.0.1" = "127.0.0.1" ∧ "5556" = "5556" ∧ "plain" = "plain" ∧
    wHappy.env "DOMAIN_NAME" = some "domain1" ∧
    wHappy.env "DOMAIN_HOME" = some "/shared/domain" :=
  connect_args_fixed wHappy userConfigPath binFilePath "127.0.0.1" "5556"
    "domain1" "/shared/domain" "plain" (by decide)

/-- C7: execution is strictly linear — the configuration prints, the read,
the write, then the connect — and the only branch is that a failure raised
in connect or start routes through a disconnect (then the printed message)
before the final exit, leaving the exit code 0 either way. -/
theorem linear_execution (w : World) (u1 u2 u3 u4 u5 contents : String) (decoded : List Nat)
    (h1 : w.env "DOMAIN_UID" = some u1) (h2 : w.env "SERVER_NAME" = some u2)
    (h3 : w.env "DOMAIN_NAME" = some u3) (h4 : w.env "DOMAIN_HOME" = some u4)
    (h5 : w.env "SERVICE_NAME" = some u5)
    (hr : w.readFile keyFilePath = some contents)
    (hdc : decodestring contents = some decoded)
    (hw : w.writeOk binFilePath = true)
    (hd2 : w.disconnectRaises = none) :
    (runScript w).1 =
      [Event.print ("domain path is " ++ u4), Event.print ("server name is " ++ u2),
       Event.fileRead keyFilePath, Event.fileWrite binFilePath decoded] ++
      (match w.connectRaises with
       | some m => [connEvent u3 u4, Event.nmDisconnect, Event.print m]
       | none =>
         match w.startRaises with
         | some m => [connEvent u3 u4, Event.nmStart u2, Event.nmDisconnect, Event.print m]
         | none => [connEvent u3 u4, Event.nmStart u2, Event.nmDisconnect]) ∧
    (runScript w).2 = Outcome.exited 0 := by
  rcases hc : w.connectRaises with _ | m
  · rcases hs : w.startRaises with _ | m
    · rw [runScript_main w u1 u2 u3 u4 u5 contents decoded h1 h2 h3 h4 h5 hr hdc hw,
        tryBlock_ok w u3 u4 u2 hc hs hd2]
      exact ⟨by simp, rfl⟩
    · rw [runScript_main w u1 u2 u3 u4 u5 contents decoded h1 h2 h3 h4 h5 hr hdc hw,
        tryBlock_start_fail w u3 u4 u2 m hc hs hd2]
      exact ⟨by simp, rfl⟩
  · rw [runScript_main w u1 u2 u3 u4 u5 contents decoded h1 h2 h3 h4 h5 hr hdc hw,
      tryBlock_conn_fail w u3 u4 u2 m hc hd2]
    exact ⟨by simp, rfl⟩

/-- Witness for C7 at `wConnFail`. -/
theorem linear_execution_w :
    (runScript wConnFail).1 =
      [Event.print ("domain path is " ++ "/shared/domain"),
       Event.print ("server name is " ++ "server1"),
       Event.fileRead keyFilePath, Event.fileWrite binFilePath secretBytes] ++
      (match wConnFail.connectRaises with
       | some m => [connEvent "domain1" "/shared/domain", Event.nmDisconnect, Event.print m]
       | none =>
         match wConnFail.startRaises with
         | some m => [connEvent "domain1" "/shared/domain", Event.nmStart "server1",
             Event.nmDisconnect, Event.print m]
         | none => [connEvent "domain1" "/shared/domain", Event.nmStart "server1",
             Event.nmDisconnect]) ∧
    (runScript wConnFail).2 = Outcome.exited 0 :=
  linear_execution wConnFail "uid1" "server1" "domain1" "/shared/domain" "svc1"
    "c2VjcmV0Ynl0ZXM=" secretBytes rfl rfl rfl rfl rfl rfl (by decide) rfl rfl

/-- C8: if the key file cannot be read, or the binary output file cannot be
written, the run ends right there with an uncaught I/O error — one read
attempt, no retry, nothing further in the trace. -/
theorem io_error_surfaced (w : World) (u1 u2 u3 u4 u5 : String)
    (h1 : w.env "DOMAIN_UID" = some u1) (h2 : w.env "SERVER_NAME" = some u2)
    (h3 : w.env "DOMAIN_NAME" = some u3) (h4 : w.env "DOMAIN_HOME" = some u4)
    (h5 : w.env "SERVICE_NAME" = some u5) :
    (w.readFile keyFilePath = none →
      runScript w = ([Event.print ("domain path is " ++ u4),
        Event.print ("server name is " ++ u2), Event.fileRead keyFilePath],
        Outcome.ioError)) ∧
    (∀ contents decoded, w.readFile keyFilePath = some contents →
      decodestring contents = some decoded → w.writeOk binFilePath = false →
      runScript w = ([Event.print ("domain path is " ++ u4),
        Event.print ("server name is " ++ u2), Event.fileRead keyFilePath],
        Outcome.ioError)) := by
  constructor
  · intro hr
    exact runScript_read_fail w u1 u2 u3 u4 u5 h1 h2 h3 h4 h5 hr
  · intro contents decoded hr hdc hw
    exact runScript_write_fail w u1 u2 u3 u4 u5 contents decoded h1 h2 h3 h4 h5 hr hdc hw

/-- Witness for C8 at `wReadFail`. -/
theorem io_error_surfaced_w :
    runScript wReadFail = ([Event.print ("domain path is " ++ "/shared/domain"),
      Event.print ("server name is " ++ "server1"), Event.fileRead keyFilePath],
      Outcome.ioError) :=
  (io_error_surfaced wReadFail "uid1" "server1" "domain1" "/shared/domain" "svc1"
    rfl rfl rfl rfl rfl).1 rfl

/-- C9: in the caught-exception branch the cleanup disconnect runs before
the `print`; if that disconnect itself raises, the trace ends at the second
disconnect — the original exception's text is never printed (the only prints
are the two diagnostics) and no exit call is reached. -/
theorem cleanup_disconnect_raise (w : World) (u1 u2 u3 u4 u5 contents m m2 : String)
    (decoded : List Nat)
    (h1 : w.env "DOMAIN_UID" = some u1) (h2 : w.env "SERVER_NAME" = some u2)
    (h3 : w.env "DOMAIN_NAME" = some u3) (h4 : w.env "DOMAIN_HOME" = some u4)
    (h5 : w.env "SERVICE_NAME" = some u5)
    (hr : w.readFile keyFilePath = some contents)
    (hdc : decodestring contents = some decoded)
    (hw : w.writeOk binFilePath = true)
    (hfail : w.connectRaises = some m ∨ (w.connectRaises = none ∧ w.startRaises = some m))
    (hd2 : w.disconnectRaises = some m2) :
    (runScript w).2 = Outcome.uncaughtWLST m2 ∧
    (∀ c, (runScript w).2 ≠ Outcome.exited c) ∧
    (runScript w).1 =
      [Event.print ("domain path is " ++ u4), Event.print ("server name is " ++ u2),
       Event.fileRead keyFilePath, Event.fileWrite binFilePath decoded] ++
      (match w.connectRaises with
       | some _ => [connEvent u3 u4, Event.nmDisconnect]
       | none => [connEvent u3 u4, Event.nmStart u2, Event.nmDisconnect]) := by
  rcases hfail with hc | ⟨hc, hs⟩
  · rw [runScript_main w u1 u2 u3 u4 u5 contents decoded h1 h2 h3 h4 h5 hr hdc hw,
      tryBlock_conn_fail_disc_fail w u3 u4 u2 m m2 hc hd2, hc]
    exact ⟨rfl, by simp, by simp⟩
  · rw [runScript_main w u1 u2 u3 u4 u5 contents decoded h1 h2 h3 h4 h5 hr hdc hw,
      tryBlock_start_fail_disc_fail w u3 u4 u2 m m2 hc hs hd2, hc]
    exact ⟨rfl, by simp, by simp⟩

/-- Witness for C9 at `wDiscFail`. -/
theorem cleanup_disconnect_raise_w :
    (runScript wDiscFail).2 = Outcome.uncaughtWLST "dboom" ∧
    (∀ c, (runScript wDiscFail).2 ≠ Outcome.exited c) ∧
    (runScript wDiscFail).1 =
      [Event.print ("domain path is " ++ "/shared/domain"),
       Event.print ("server name is " ++ "server1"),
       Event.fileRead keyFilePath, Event.fileWrite binFilePath secretBytes] ++
      (match wDiscFail.connectRaises with
       | some _ => [connEvent "domain1" "/shared/domain", Event.nmDisconnect]
       | none => [connEvent "domain1" "/shared/domain", Event.nmStart "server1",
           Event.nmDisconnect]) :=
  cleanup_disconnect_raise wDiscFail "uid1" "server1" "domain1" "/shared/domain" "svc1"
    "c2VjcmV0Ynl0ZXM=" "boom" "dboom" secretBytes rfl rfl rfl rfl rfl rfl (by decide) rfl
    (Or.inl rfl) rfl
